import Mathlib

/-!
Shallow embedding of `src/config.rs` of librustconfig, a Rust wrapper around
the C libconfig engine.  The wrapper types `Config`, `OptionWriter`,
`OptionReader` and `Errors` and all their methods are translated directly from
the Rust source.  The C engine's setting tree lives behind raw pointers; it is
embedded as an arena (`List Setting`) addressed by numeric pointers, with the
engine's primitives (`config_setting_add`, `config_setting_get_int`, ...)
modelled from the spec's description of the external collaborator.

Modelling conventions:
* a raw `config_setting_t*` is a `Ptr := Nat` index into the arena; the Rust
  `Option<*mut config_setting_t>` becomes `Option Ptr`;
* `f64` values are carried as opaque bit patterns (`Nat`); the wrapper never
  inspects them, it only moves them between the engine and the caller, and the
  engine's default `0.0` is represented by the zero pattern;
* a Rust `String` / C string payload is carried as its byte list
  (`List Nat`), so that null pointers (`none`) and invalid UTF-8 byte
  sequences are representable exactly as in the C engine.
-/

set_option autoImplicit false

namespace RustConfig

/-- Raw pointer into the setting arena. -/
abbrev Ptr := Nat

/-- The libconfig setting type tag (`CONFIG_TYPE_*`). -/
inductive SettingType where
  | tNone
  | tGroup
  | tArray
  | tList
  | tInt
  | tInt64
  | tFloat
  | tString
  | tBool
  deriving DecidableEq, Repr

/-- One `config_setting_t` node of the engine's tree: name (null for unnamed
settings such as the root), type tag, parent pointer, children pointers for
aggregate types, and one payload slot per scalar type. -/
structure Setting where
  name : Option String
  ty : SettingType
  parent : Option Ptr
  children : List Ptr
  ival : Int
  i64val : Int
  fbits : Nat
  bval : Bool
  sval : Option (List Nat)
  deriving DecidableEq, Repr

/-- The all-empty setting: unnamed, `CONFIG_TYPE_NONE`, no parent, no payload. -/
def defaultSetting : Setting :=
  { name := none, ty := SettingType.tNone, parent := none, children := [],
    ival := 0, i64val := 0, fbits := 0, bval := false, sval := none }

instance : Inhabited Setting := ⟨defaultSetting⟩

/-- Arena read: dereference a raw pointer (out-of-arena pointers read as the
default empty setting; live code never follows them). -/
def getS (h : List Setting) (p : Ptr) : Setting :=
  h.getD p defaultSetting

/-- Arena write at a pointer. -/
def setS (h : List Setting) (p : Ptr) (s : Setting) : List Setting :=
  h.set p s

/-- `config_setting_is_group`. -/
def config_setting_is_group (h : List Setting) (p : Ptr) : Bool :=
  decide ((getS h p).ty = SettingType.tGroup)

/-- `config_setting_is_array`. -/
def config_setting_is_array (h : List Setting) (p : Ptr) : Bool :=
  decide ((getS h p).ty = SettingType.tArray)

/-- `config_setting_is_list`. -/
def config_setting_is_list (h : List Setting) (p : Ptr) : Bool :=
  decide ((getS h p).ty = SettingType.tList)

/-- `config_setting_name`: the setting's name, `none` for a null C string. -/
def config_setting_name (h : List Setting) (p : Ptr) : Option String :=
  (getS h p).name

/-- `config_setting_parent`: the parent pointer, `none` for null. -/
def config_setting_parent (h : List Setting) (p : Ptr) : Option Ptr :=
  (getS h p).parent

/-- `config_setting_index`: position of the setting among its parent's
children, `-1` when it has no parent (or is not found there). -/
def config_setting_index (h : List Setting) (p : Ptr) : Int :=
  match (getS h p).parent with
  | none => -1
  | some q =>
    match (getS h q).children.indexOf? p with
    | some i => Int.ofNat i
    | none => -1

/-- Find the child of `parent` whose name is `name` (first match). -/
def findMember (h : List Setting) (parent : Ptr) (name : String) : Option Ptr :=
  (getS h parent).children.find? (fun c => decide ((getS h c).name = some name))

/-- Modelled from the spec: `config_setting_add` of the external libconfig
engine.  Appends a fresh child of the given type under `parent`; per the spec
(§4.3) the call fails (null) when `parent` does not refer to a Group or when
`name` already exists among the parent's children; the new child starts with
an empty payload and a parent back-reference.  (The engine's lexical name
validation is not described by the spec and is not modelled.) -/
def config_setting_add (h : List Setting) (parent : Ptr) (name : String)
    (ty : SettingType) : Option Ptr × List Setting :=
  if config_setting_is_group h parent then
    match findMember h parent name with
    | some _ => (none, h)
    | none =>
      let q := h.length
      let child : Setting :=
        { defaultSetting with name := some name, ty := ty, parent := some parent }
      let h2 := h ++ [child]
      let ps := getS h2 parent
      (some q, setS h2 parent { ps with children := ps.children ++ [q] })
  else (none, h)

/-- Modelled from the spec: `config_setting_set_int` stores an int payload;
it succeeds on an `INT`-typed setting (or types a fresh `NONE` setting) and
is rejected on any other type. -/
def config_setting_set_int (h : List Setting) (p : Ptr) (v : Int) :
    Bool × List Setting :=
  let s := getS h p
  match s.ty with
  | SettingType.tInt => (true, setS h p { s with ival := v })
  | SettingType.tNone =>
      (true, setS h p { s with ty := SettingType.tInt, ival := v })
  | _ => (false, h)

/-- Modelled from the spec: `config_setting_set_int64`, as for int. -/
def config_setting_set_int64 (h : List Setting) (p : Ptr) (v : Int) :
    Bool × List Setting :=
  let s := getS h p
  match s.ty with
  | SettingType.tInt64 => (true, setS h p { s with i64val := v })
  | SettingType.tNone =>
      (true, setS h p { s with ty := SettingType.tInt64, i64val := v })
  | _ => (false, h)

/-- Modelled from the spec: `config_setting_set_float`, as for int (the f64
payload is an opaque bit pattern). -/
def config_setting_set_float (h : List Setting) (p : Ptr) (v : Nat) :
    Bool × List Setting :=
  let s := getS h p
  match s.ty with
  | SettingType.tFloat => (true, setS h p { s with fbits := v })
  | SettingType.tNone =>
      (true, setS h p { s with ty := SettingType.tFloat, fbits := v })
  | _ => (false, h)

/-- Modelled from the spec: `config_setting_set_bool`, as for int. -/
def config_setting_set_bool (h : List Setting) (p : Ptr) (v : Bool) :
    Bool × List Setting :=
  let s := getS h p
  match s.ty with
  | SettingType.tBool => (true, setS h p { s with bval := v })
  | SettingType.tNone =>
      (true, setS h p { s with ty := SettingType.tBool, bval := v })
  | _ => (false, h)

/-- Modelled from the spec: `config_setting_set_string`, as for int (the
stored C string is the byte list of the argument). -/
def config_setting_set_string (h : List Setting) (p : Ptr) (v : List Nat) :
    Bool × List Setting :=
  let s := getS h p
  match s.ty with
  | SettingType.tString => (true, setS h p { s with sval := some v })
  | SettingType.tNone =>
      (true, setS h p { s with ty := SettingType.tString, sval := some v })
  | _ => (false, h)

/-- Modelled from the spec: `config_setting_get_int` returns the stored int
when the setting is `INT`-typed and the engine default `0` otherwise. -/
def config_setting_get_int (h : List Setting) (p : Ptr) : Int :=
  if (getS h p).ty = SettingType.tInt then (getS h p).ival else 0

/-- Modelled from the spec: `config_setting_get_int64`, as for int. -/
def config_setting_get_int64 (h : List Setting) (p : Ptr) : Int :=
  if (getS h p).ty = SettingType.tInt64 then (getS h p).i64val else 0

/-- Modelled from the spec: `config_setting_get_float`; the default `0.0` is
the zero bit pattern. -/
def config_setting_get_float (h : List Setting) (p : Ptr) : Nat :=
  if (getS h p).ty = SettingType.tFloat then (getS h p).fbits else 0

/-- Modelled from the spec: `config_setting_get_bool` returns `CONFIG_FALSE`
on a non-`BOOL` setting; the wrapper compares against `CONFIG_TRUE`, so the
embedding returns the resulting boolean directly. -/
def config_setting_get_bool (h : List Setting) (p : Ptr) : Bool :=
  if (getS h p).ty = SettingType.tBool then (getS h p).bval else false

/-- Modelled from the spec: `config_setting_get_string` returns the stored
C string for a `STRING`-typed setting and a null pointer (`none`) otherwise. -/
def config_setting_get_string (h : List Setting) (p : Ptr) : Option (List Nat) :=
  if (getS h p).ty = SettingType.tString then (getS h p).sval else none

/-- `config_setting_type`, the raw tag consulted by `value_type`. -/
def config_setting_type (h : List Setting) (p : Ptr) : SettingType :=
  (getS h p).ty

/-- Modelled from the spec: `config_setting_remove` removes the member named
`name` from a Group (`CONFIG_FALSE` when the parent is not a Group or the
name is absent). -/
def config_setting_remove (h : List Setting) (parent : Ptr) (name : String) :
    Bool × List Setting :=
  if config_setting_is_group h parent then
    match findMember h parent name with
    | none => (false, h)
    | some _ =>
      let ps := getS h parent
      (true, setS h parent
        { ps with children :=
            ps.children.eraseP (fun c => decide ((getS h c).name = some name)) })
  else (false, h)

/-- Modelled from the spec: `config_setting_remove_elem` removes the child at
a positional index from an aggregate setting, failing on scalars and
out-of-range indexes. -/
def config_setting_remove_elem (h : List Setting) (parent : Ptr) (idx : Nat) :
    Bool × List Setting :=
  let ps := getS h parent
  if (ps.ty = SettingType.tGroup ∨ ps.ty = SettingType.tArray ∨
      ps.ty = SettingType.tList) ∧ idx < ps.children.length then
    (true, setS h parent { ps with children := ps.children.eraseIdx idx })
  else (false, h)

/-- One step of path resolution: a Group resolves the segment as a member
name, an Array or List resolves it as a decimal index, scalars resolve
nothing.  Modelled from the spec (§4.1). -/
def resolveSeg (h : List Setting) (p : Ptr) (seg : String) : Option Ptr :=
  match (getS h p).ty with
  | SettingType.tGroup => findMember h p seg
  | SettingType.tArray => (getS h p).children.get? (seg.toNat?.getD (getS h p).children.length)
  | SettingType.tList => (getS h p).children.get? (seg.toNat?.getD (getS h p).children.length)
  | _ => none

/-- Modelled from the spec: `config_setting_lookup` resolves a dot-separated
path left to right, the first failing segment aborting with null; the empty
path resolves to the start setting (§4.1). -/
def config_setting_lookup (h : List Setting) (p : Ptr) (path : String) :
    Option Ptr :=
  if path = "" then some p
  else
    (path.splitOn ".").foldl
      (fun acc seg => acc.bind (fun q => resolveSeg h q seg)) (some p)

/-! ### UTF-8 validation

Rust's `CStr::to_str` succeeds exactly when the bytes are valid UTF-8; the
check is embedded as the standard UTF-8 acceptance automaton (surrogates and
overlong encodings rejected, as in `str::from_utf8`). -/

/-- States of the UTF-8 acceptance automaton: `start` between scalar values,
`tailN` expecting `N` continuation bytes, and the four constrained states
after a first byte of `E0`/`ED`/`F0`/`F4`. -/
inductive Utf8State where
  | start
  | tail1
  | tail2
  | tail3
  | tailE0
  | tailED
  | tailF0
  | tailF4
  deriving DecidableEq, Repr

/-- A UTF-8 continuation byte. -/
def isCont (b : Nat) : Bool :=
  0x80 ≤ b ∧ b ≤ 0xBF

/-- One byte of the UTF-8 acceptance automaton; `none` rejects. -/
def utf8Step (st : Utf8State) (b : Nat) : Option Utf8State :=
  match st with
  | Utf8State.start =>
    if b ≤ 0x7F then some Utf8State.start
    else if 0xC2 ≤ b ∧ b ≤ 0xDF then some Utf8State.tail1
    else if b = 0xE0 then some Utf8State.tailE0
    else if (0xE1 ≤ b ∧ b ≤ 0xEC) ∨ b = 0xEE ∨ b = 0xEF then some Utf8State.tail2
    else if b = 0xED then some Utf8State.tailED
    else if b = 0xF0 then some Utf8State.tailF0
    else if 0xF1 ≤ b ∧ b ≤ 0xF3 then some Utf8State.tail3
    else if b = 0xF4 then some Utf8State.tailF4
    else none
  | Utf8State.tail1 => if isCont b then some Utf8State.start else none
  | Utf8State.tail2 => if isCont b then some Utf8State.tail1 else none
  | Utf8State.tail3 => if isCont b then some Utf8State.tail2 else none
  | Utf8State.tailE0 =>
    if 0xA0 ≤ b ∧ b ≤ 0xBF then some Utf8State.tail1 else none
  | Utf8State.tailED =>
    if 0x80 ≤ b ∧ b ≤ 0x9F then some Utf8State.tail1 else none
  | Utf8State.tailF0 =>
    if 0x90 ≤ b ∧ b ≤ 0xBF then some Utf8State.tail2 else none
  | Utf8State.tailF4 =>
    if 0x80 ≤ b ∧ b ≤ 0x8F then some Utf8State.tail2 else none

/-- Run the automaton; a byte list is accepted when it ends in `start`. -/
def utf8Run : Utf8State → List Nat → Bool
  | st, [] => decide (st = Utf8State.start)
  | st, b :: rest =>
    match utf8Step st b with
    | none => false
    | some st2 => utf8Run st2 rest

/-- Validity check behind Rust's `CStr::to_str` / `str::from_utf8`. -/
def isValidUtf8 (l : List Nat) : Bool :=
  utf8Run Utf8State.start l

/-! ### The wrapper types of `src/config.rs` -/

/-- `Errors`, the wrapper's error enum. -/
inductive Errors where
  | ParseError
  | FileNotExists
  | SaveError
  | ElementNotExists
  | DeleteError
  deriving DecidableEq, Repr

/-- `OptionType`, the wrapper's scalar type enum. -/
inductive OptionType where
  | IntegerType
  | Int64Type
  | FloatType
  | StringType
  | BooleanType
  deriving DecidableEq, Repr

/-- `OptionWriter`: a writer view holding an optional raw setting pointer. -/
structure OptionWriter where
  element : Option Ptr
  deriving DecidableEq, Repr

/-- `OptionReader`: a reader view holding an optional raw setting pointer. -/
structure OptionReader where
  element : Option Ptr
  deriving DecidableEq, Repr

/-- `Config`: the document; `heap` embeds the tree owned by the raw
`config_t` and `root_element` is the stored optional root pointer. -/
structure Config where
  heap : List Setting
  root_element : Option Ptr
  deriving DecidableEq, Repr

/-- `OptionWriter::new`. -/
def OptionWriter.new (e : Option Ptr) : OptionWriter := ⟨e⟩

/-- `OptionReader::new`. -/
def OptionReader.new (e : Option Ptr) : OptionReader := ⟨e⟩

/-! ### `OptionReader` methods (reads are pure over the arena) -/

/-- `OptionReader::is_section`. -/
def OptionReader.is_section (r : OptionReader) (h : List Setting) : Option Bool :=
  match r.element with
  | none => none
  | some e => some (config_setting_is_group h e)

/-- `OptionReader::is_array`. -/
def OptionReader.is_array (r : OptionReader) (h : List Setting) : Option Bool :=
  match r.element with
  | none => none
  | some e => some (config_setting_is_array h e)

/-- `OptionReader::is_list`. -/
def OptionReader.is_list (r : OptionReader) (h : List Setting) : Option Bool :=
  match r.element with
  | none => none
  | some e => some (config_setting_is_list h e)

/-- `OptionReader::parent`. -/
def OptionReader.parent (r : OptionReader) (h : List Setting) : Option OptionReader :=
  match r.element with
  | none => none
  | some e =>
    match config_setting_parent h e with
    | none => none
    | some q => some (OptionReader.new (some q))

/-- `OptionReader::value_type`. -/
def OptionReader.value_type (r : OptionReader) (h : List Setting) : Option OptionType :=
  match r.element with
  | none => none
  | some e =>
    match config_setting_type h e with
    | SettingType.tInt => some OptionType.IntegerType
    | SettingType.tInt64 => some OptionType.Int64Type
    | SettingType.tFloat => some OptionType.FloatType
    | SettingType.tString => some OptionType.StringType
    | SettingType.tBool => some OptionType.BooleanType
    | _ => none

/-- `OptionReader::value`: resolve a path from this node. -/
def OptionReader.value (r : OptionReader) (h : List Setting) (path : String) :
    Option OptionReader :=
  match r.element with
  | none => none
  | some e =>
    match config_setting_lookup h e path with
    | none => none
    | some q => some (OptionReader.new (some q))

/-- `OptionReader::as_int32`. -/
def OptionReader.as_int32 (r : OptionReader) (h : List Setting) : Option Int :=
  match r.element with
  | none => none
  | some e => some (config_setting_get_int h e)

/-- `OptionReader::as_int32_default`. -/
def OptionReader.as_int32_default (r : OptionReader) (h : List Setting) (d : Int) : Int :=
  match r.as_int32 h with
  | some x => x
  | none => d

/-- `OptionReader::as_int64`. -/
def OptionReader.as_int64 (r : OptionReader) (h : List Setting) : Option Int :=
  match r.element with
  | none => none
  | some e => some (config_setting_get_int64 h e)

/-- `OptionReader::as_int64_default`. -/
def OptionReader.as_int64_default (r : OptionReader) (h : List Setting) (d : Int) : Int :=
  match r.as_int64 h with
  | some x => x
  | none => d

/-- `OptionReader::as_float64` (f64 as opaque bit pattern). -/
def OptionReader.as_float64 (r : OptionReader) (h : List Setting) : Option Nat :=
  match r.element with
  | none => none
  | some e => some (config_setting_get_float h e)

/-- `OptionReader::as_float_default` (the source's name for the f64 default
variant). -/
def OptionReader.as_float_default (r : OptionReader) (h : List Setting) (d : Nat) : Nat :=
  match r.as_float64 h with
  | some x => x
  | none => d

/-- `OptionReader::as_bool`. -/
def OptionReader.as_bool (r : OptionReader) (h : List Setting) : Option Bool :=
  match r.element with
  | none => none
  | some e => some (config_setting_get_bool h e)

/-- `OptionReader::as_bool_default`. -/
def OptionReader.as_bool_default (r : OptionReader) (h : List Setting) (d : Bool) : Bool :=
  match r.as_bool h with
  | some x => x
  | none => d

/-- `OptionReader::as_string`: null C string or invalid UTF-8 yield `none`
(the Rust `CStr::to_str().is_ok()` check); the returned Rust `String` is its
byte list. -/
def OptionReader.as_string (r : OptionReader) (h : List Setting) : Option (List Nat) :=
  match r.element with
  | none => none
  | some e =>
    match config_setting_get_string h e with
    | none => none
    | some bs => if isValidUtf8 bs then some bs else none

/-- `OptionReader::as_string_default` (the default value is a Rust `String`,
hence a valid byte list). -/
def OptionReader.as_string_default (r : OptionReader) (h : List Setting)
    (d : List Nat) : List Nat :=
  match r.as_string h with
  | some x => x
  | none => d

/-! ### `OptionWriter` methods (mutations return the new arena) -/

/-- `OptionWriter::delete`: group members are removed from their parent by
name, everything else by positional index; an unbound view yields
`ElementNotExists`, a missing name or parent (or a rejected engine removal)
yields `DeleteError`.  The Rust `index as u32` cast sends the engine's `-1`
to `4294967295`. -/
def OptionWriter.delete (w : OptionWriter) (h : List Setting) :
    Except Errors Unit × List Setting :=
  match w.element with
  | none => (Except.error Errors.ElementNotExists, h)
  | some e =>
    if config_setting_is_group h e then
      match config_setting_name h e with
      | none => (Except.error Errors.DeleteError, h)
      | some nm =>
        match config_setting_parent h e with
        | none => (Except.error Errors.DeleteError, h)
        | some pp =>
          let res := config_setting_remove h pp nm
          if res.1 then (Except.ok (), res.2)
          else (Except.error Errors.DeleteError, res.2)
    else
      let idx := config_setting_index h e
      match config_setting_parent h e with
      | none => (Except.error Errors.DeleteError, h)
      | some pp =>
        let u32idx : Nat := if idx < 0 then 4294967295 else idx.toNat
        let res := config_setting_remove_elem h pp u32idx
        if res.1 then (Except.ok (), res.2)
        else (Except.error Errors.DeleteError, res.2)

/-- `OptionReader::delete` delegates to the writer. -/
def OptionReader.delete (r : OptionReader) (h : List Setting) :
    Except Errors Unit × List Setting :=
  (OptionWriter.new r.element).delete h

/-- `OptionWriter::create_section`. -/
def OptionWriter.create_section (w : OptionWriter) (h : List Setting)
    (path : String) : Option OptionWriter × List Setting :=
  match w.element with
  | none => (none, h)
  | some e =>
    match config_setting_add h e path SettingType.tGroup with
    | (none, h2) => (none, h2)
    | (some q, h2) => (some (OptionWriter.new (some q)), h2)

/-- `OptionWriter::create_array`. -/
def OptionWriter.create_array (w : OptionWriter) (h : List Setting)
    (path : String) : Option OptionWriter × List Setting :=
  match w.element with
  | none => (none, h)
  | some e =>
    match config_setting_add h e path SettingType.tArray with
    | (none, h2) => (none, h2)
    | (some q, h2) => (some (OptionWriter.new (some q)), h2)

/-- `OptionWriter::create_list`. -/
def OptionWriter.create_list (w : OptionWriter) (h : List Setting)
    (path : String) : Option OptionWriter × List Setting :=
  match w.element with
  | none => (none, h)
  | some e =>
    match config_setting_add h e path SettingType.tList with
    | (none, h2) => (none, h2)
    | (some q, h2) => (some (OptionWriter.new (some q)), h2)

/-- `OptionWriter::write_int32`: add an `INT` child, then set its value; on
success returns `Some(*self)`, a copy of this same writer. -/
def OptionWriter.write_int32 (w : OptionWriter) (h : List Setting)
    (name : String) (value : Int) : Option OptionWriter × List Setting :=
  match w.element with
  | none => (none, h)
  | some e =>
    match config_setting_add h e name SettingType.tInt with
    | (none, h2) => (none, h2)
    | (some q, h2) =>
      let res := config_setting_set_int h2 q value
      if res.1 then (some w, res.2) else (none, res.2)

/-- `OptionWriter::write_int64`. -/
def OptionWriter.write_int64 (w : OptionWriter) (h : List Setting)
    (name : String) (value : Int) : Option OptionWriter × List Setting :=
  match w.element with
  | none => (none, h)
  | some e =>
    match config_setting_add h e name SettingType.tInt64 with
    | (none, h2) => (none, h2)
    | (some q, h2) =>
      let res := config_setting_set_int64 h2 q value
      if res.1 then (some w, res.2) else (none, res.2)

/-- `OptionWriter::write_float64` (f64 as opaque bit pattern). -/
def OptionWriter.write_float64 (w : OptionWriter) (h : List Setting)
    (name : String) (value : Nat) : Option OptionWriter × List Setting :=
  match w.element with
  | none => (none, h)
  | some e =>
    match config_setting_add h e name SettingType.tFloat with
    | (none, h2) => (none, h2)
    | (some q, h2) =>
      let res := config_setting_set_float h2 q value
      if res.1 then (some w, res.2) else (none, res.2)

/-- `OptionWriter::write_bool`. -/
def OptionWriter.write_bool (w : OptionWriter) (h : List Setting)
    (name : String) (value : Bool) : Option OptionWriter × List Setting :=
  match w.element with
  | none => (none, h)
  | some e =>
    match config_setting_add h e name SettingType.tBool with
    | (none, h2) => (none, h2)
    | (some q, h2) =>
      let res := config_setting_set_bool h2 q value
      if res.1 then (some w, res.2) else (none, res.2)

/-- `OptionWriter::write_string` (values carried as byte lists). -/
def OptionWriter.write_string (w : OptionWriter) (h : List Setting)
    (name : String) (value : List Nat) : Option OptionWriter × List Setting :=
  match w.element with
  | none => (none, h)
  | some e =>
    match config_setting_add h e name SettingType.tString with
    | (none, h2) => (none, h2)
    | (some q, h2) =>
      let res := config_setting_set_string h2 q value
      if res.1 then (some w, res.2) else (none, res.2)

/-! ### `Config` (document lifecycle) -/

/-- Modelled from the spec: the observable outcome of one call into the
external parse engine (`config_read_file` / `config_read_string`): whether
parsing succeeded, the engine-owned tree afterwards, and the raw pointer
`config_root_setting` reports after the call (`none` models a null pointer). -/
structure ParseOutcome where
  success : Bool
  heap : List Setting
  rootPtr : Option Ptr
  deriving DecidableEq, Repr

/-- `Config::new`: an empty document whose root is an unnamed Group. -/
def Config.new : Config :=
  { heap := [{ defaultSetting with ty := SettingType.tGroup }],
    root_element := some 0 }

/-- `Config::load_from_string`: on engine success the root pointer is stored
after a null check; on failure (or a null root) the stored root is cleared
and `ParseError` returned. -/
def Config.load_from_string (cfg : Config) (outcome : ParseOutcome) :
    Except Errors Unit × Config :=
  if outcome.success then
    match outcome.rootPtr with
    | none =>
      (Except.error Errors.ParseError, { heap := outcome.heap, root_element := none })
    | some p =>
      (Except.ok (), { heap := outcome.heap, root_element := some p })
  else
    (Except.error Errors.ParseError, { heap := outcome.heap, root_element := none })

/-- `Config::load_from_file`: a missing file fails with `FileNotExists`
before the engine is consulted, leaving the document untouched; otherwise the
engine parses and a failure clears the stored root and returns `ParseError`.
(The success branch stores the engine's root pointer as returned.) -/
def Config.load_from_file (cfg : Config) (file_exists : Bool)
    (outcome : ParseOutcome) : Except Errors Unit × Config :=
  if file_exists then
    if outcome.success then
      (Except.ok (), { heap := outcome.heap, root_element := outcome.rootPtr })
    else
      (Except.error Errors.ParseError, { heap := outcome.heap, root_element := none })
  else
    (Except.error Errors.FileNotExists, cfg)

/-- `Config::value`: read a path from the root. -/
def Config.value (cfg : Config) (path : String) : Option OptionReader :=
  (OptionReader.new cfg.root_element).value cfg.heap path

/-- `Config::create_section`: create a group under the root. -/
def Config.create_section (cfg : Config) (path : String) :
    Option OptionWriter × List Setting :=
  (OptionWriter.new cfg.root_element).create_section cfg.heap path

/-! ### Concrete states and a well-formedness predicate for the theorems -/

/-- Arena well-formedness at one aggregate: all children pointers live inside
the arena (every arena the engine or the writers produce satisfies this). -/
def wfChildren (h : List Setting) (p : Ptr) : Bool :=
  (getS h p).children.all (fun c => decide (c < h.length))

/-- A one-setting arena holding a bare root Group. -/
def groupHeap : List Setting :=
  [{ defaultSetting with ty := SettingType.tGroup }]

/-- An arena whose only setting is a string scalar holding the single byte
`0xFF`, which is not valid UTF-8. -/
def badStrHeap : List Setting :=
  [{ defaultSetting with ty := SettingType.tString, sval := some [255] }]

/-- An arena with a root Group holding one int member `a = 7`. -/
def intHeap : List Setting :=
  [{ defaultSetting with ty := SettingType.tGroup, children := [1] },
   { defaultSetting with name := some "a", ty := SettingType.tInt, parent := some 0, ival := 7 }]

/-! ### Arena lemmas -/

theorem getS_setS_ne (h : List Setting) (i j : Ptr) (s : Setting) (hij : i ≠ j) :
    getS (setS h i s) j = getS h j := by
  simp [getS, setS, List.getD_eq_getD_get?, List.get?_eq_getElem?,
    List.getElem?_set_ne hij]

theorem getS_setS_self (h : List Setting) (i : Ptr) (s : Setting)
    (hi : i < h.length) : getS (setS h i s) i = s := by
  rw [getS, setS, List.getD_eq_getD_get?, List.get?_eq_getElem?,
    List.getElem?_set_eq_of_lt _ hi]
  rfl

theorem getS_append_lt (h : List Setting) (s : Setting) (i : Ptr)
    (hi : i < h.length) : getS (h ++ [s]) i = getS h i := by
  rw [getS, getS, List.getD_append _ _ _ _ hi]

theorem getS_append_len (h : List Setting) (s : Setting) :
    getS (h ++ [s]) h.length = s := by
  rw [getS, List.getD_append_right _ _ _ _ (Nat.le_refl _)]
  simp

theorem getS_default (h : List Setting) (i : Ptr) (hi : h.length ≤ i) :
    getS h i = defaultSetting :=
  List.getD_eq_default _ _ hi

theorem group_lt_length {h : List Setting} {p : Ptr}
    (hg : config_setting_is_group h p = true) : p < h.length := by
  by_contra hlt
  push_neg at hlt
  rw [config_setting_is_group, getS_default h p hlt] at hg
  simp [defaultSetting] at hg

/-! ### Behaviour of the modelled `config_setting_add` -/

theorem config_setting_add_none {h : List Setting} {parent : Ptr}
    {name : String} {ty : SettingType} {h2 : List Setting}
    (he : config_setting_add h parent name ty = (none, h2)) : h2 = h := by
  unfold config_setting_add at he
  split at he
  · split at he
    · exact (Prod.mk.injEq _ _ _ _ ▸ he).2.symm
    · simp at he
  · exact (Prod.mk.injEq _ _ _ _ ▸ he).2.symm

theorem config_setting_add_success {h : List Setting} {parent : Ptr}
    {name : String} (ty : SettingType)
    (hg : config_setting_is_group h parent = true)
    (hf : findMember h parent name = none) :
    config_setting_add h parent name ty =
      (some h.length,
       setS (h ++ [{ defaultSetting with name := some name, ty := ty, parent := some parent }])
         parent
         { getS h parent with children := (getS h parent).children ++ [h.length] }) := by
  unfold config_setting_add
  rw [hg, if_pos rfl, hf]
  simp only [getS_append_lt h _ parent (group_lt_length hg)]

theorem config_setting_add_some {h : List Setting} {parent : Ptr}
    {name : String} {ty : SettingType} {q : Ptr} {h2 : List Setting}
    (he : config_setting_add h parent name ty = (some q, h2)) :
    config_setting_is_group h parent = true ∧
    findMember h parent name = none ∧ q = h.length ∧
    h2 = setS (h ++ [{ defaultSetting with name := some name, ty := ty, parent := some parent }])
           parent
           { getS h parent with children := (getS h parent).children ++ [h.length] } := by
  have hg : config_setting_is_group h parent = true := by
    by_contra hng
    unfold config_setting_add at he
    rw [if_neg (by simpa using hng)] at he
    simp at he
  have hf : findMember h parent name = none := by
    cases hfm : findMember h parent name with
    | none => rfl
    | some c =>
      unfold config_setting_add at he
      rw [hg, if_pos rfl, hfm] at he
      simp at he
  have hs := (config_setting_add_success ty hg hf).symm.trans he
  have hfst : some h.length = some q := congrArg Prod.fst hs
  have hsnd := congrArg Prod.snd hs
  exact ⟨hg, hf, (Option.some.inj hfst).symm, hsnd.symm⟩

theorem config_setting_add_child {h : List Setting} {parent : Ptr}
    {name : String} {ty : SettingType} {q : Ptr} {h2 : List Setting}
    (he : config_setting_add h parent name ty = (some q, h2)) :
    getS h2 q =
      { defaultSetting with name := some name, ty := ty, parent := some parent } := by
  obtain ⟨hg, hf, hq, hh⟩ := config_setting_add_some he
  subst hq
  subst hh
  rw [getS_setS_ne _ parent h.length _ (Nat.ne_of_lt (group_lt_length hg))]
  exact getS_append_len h _

theorem config_setting_add_parent {h : List Setting} {parent : Ptr}
    {name : String} {ty : SettingType} {q : Ptr} {h2 : List Setting}
    (he : config_setting_add h parent name ty = (some q, h2)) :
    getS h2 parent =
      { getS h parent with children := (getS h parent).children ++ [q] } := by
  obtain ⟨hg, hf, hq, hh⟩ := config_setting_add_some he
  subst hq
  subst hh
  rw [getS_setS_self]
  simp only [List.length_append, List.length_singleton]
  exact Nat.lt_succ_of_lt (group_lt_length hg)

theorem config_setting_add_old {h : List Setting} {parent : Ptr}
    {name : String} {ty : SettingType} {q : Ptr} {h2 : List Setting}
    (he : config_setting_add h parent name ty = (some q, h2))
    (c : Ptr) (hcp : c ≠ parent) (hcl : c < h.length) :
    getS h2 c = getS h c := by
  obtain ⟨hg, hf, hq, hh⟩ := config_setting_add_some he
  subst hh
  rw [getS_setS_ne _ parent c _ (fun hpc => hcp hpc.symm)]
  exact getS_append_lt h _ c hcl

theorem config_setting_add_dup {h : List Setting} {parent : Ptr}
    {name : String} {ty : SettingType} {q : Ptr} {h2 : List Setting}
    (hw : wfChildren h parent = true)
    (he : config_setting_add h parent name ty = (some q, h2))
    (ty2 : SettingType) :
    config_setting_add h2 parent name ty2 = (none, h2) := by
  obtain ⟨hg, hf, hq, hh⟩ := config_setting_add_some he
  have hgty : (getS h parent).ty = SettingType.tGroup := by
    simpa [config_setting_is_group] using hg
  have hg2 : config_setting_is_group h2 parent = true := by
    rw [config_setting_is_group, config_setting_add_parent he]
    simpa [config_setting_is_group] using hg
  have hold : ∀ c ∈ (getS h parent).children,
      (getS h2 c).name = (getS h c).name := by
    intro c hc
    have hcl : c < h.length := by
      have hall := List.all_eq_true.mp hw c hc
      simpa using hall
    by_cases hcp : c = parent
    · subst hcp
      rw [config_setting_add_parent he]
    · rw [config_setting_add_old he c hcp hcl]
  have hnone : (getS h parent).children.find?
      (fun c => decide ((getS h2 c).name = some name)) = none := by
    apply List.find?_eq_none.mpr
    intro c hc
    have hne := List.find?_eq_none.mp hf c hc
    simp only [decide_eq_true_eq] at hne ⊢
    rw [hold c hc]
    exact hne
  have hfm : findMember h2 parent name = some q := by
    rw [findMember, config_setting_add_parent he]
    simp only [List.find?_append, hnone, Option.none_or]
    have hqname : (getS h2 q).name = some name := by
      rw [config_setting_add_child he]
    simp [List.find?, hqname]
  unfold config_setting_add
  rw [hg2, if_pos rfl, hfm]

theorem config_setting_set_int_true {h : List Setting} {q : Ptr} (v : Int)
    (hty : (getS h q).ty = SettingType.tInt) :
    (config_setting_set_int h q v).1 = true := by
  simp only [config_setting_set_int, hty]

theorem config_setting_set_int64_true {h : List Setting} {q : Ptr} (v : Int)
    (hty : (getS h q).ty = SettingType.tInt64) :
    (config_setting_set_int64 h q v).1 = true := by
  simp only [config_setting_set_int64, hty]

theorem config_setting_set_float_true {h : List Setting} {q : Ptr} (v : Nat)
    (hty : (getS h q).ty = SettingType.tFloat) :
    (config_setting_set_float h q v).1 = true := by
  simp only [config_setting_set_float, hty]

theorem config_setting_set_bool_true {h : List Setting} {q : Ptr} (v : Bool)
    (hty : (getS h q).ty = SettingType.tBool) :
    (config_setting_set_bool h q v).1 = true := by
  simp only [config_setting_set_bool, hty]

theorem config_setting_set_string_true {h : List Setting} {q : Ptr}
    (v : List Nat) (hty : (getS h q).ty = SettingType.tString) :
    (config_setting_set_string h q v).1 = true := by
  simp only [config_setting_set_string, hty]

/-! ### Frame and chaining lemmas for the `write_*` operations -/

theorem write_int32_none_frame {h : List Setting} {w : OptionWriter}
    {name : String} {v : Int} {h2 : List Setting}
    (he : w.write_int32 h name v = (none, h2)) : h2 = h := by
  cases hw : w.element with
  | none =>
    simp only [OptionWriter.write_int32, hw] at he
    exact (Prod.mk.injEq _ _ _ _ ▸ he).2.symm
  | some e =>
    simp only [OptionWriter.write_int32, hw] at he
    cases hadd : config_setting_add h e name SettingType.tInt with
    | mk o hh =>
      cases o with
      | none =>
        rw [hadd] at he
        exact ((Prod.mk.injEq _ _ _ _ ▸ he).2).symm.trans (config_setting_add_none hadd)
      | some q =>
        rw [hadd] at he
        have hty : (getS hh q).ty = SettingType.tInt := by
          rw [config_setting_add_child hadd]
        simp only [config_setting_set_int_true v hty] at he
        simp at he

theorem write_int64_none_frame {h : List Setting} {w : OptionWriter}
    {name : String} {v : Int} {h2 : List Setting}
    (he : w.write_int64 h name v = (none, h2)) : h2 = h := by
  cases hw : w.element with
  | none =>
    simp only [OptionWriter.write_int64, hw] at he
    exact (Prod.mk.injEq _ _ _ _ ▸ he).2.symm
  | some e =>
    simp only [OptionWriter.write_int64, hw] at he
    cases hadd : config_setting_add h e name SettingType.tInt64 with
    | mk o hh =>
      cases o with
      | none =>
        rw [hadd] at he
        exact ((Prod.mk.injEq _ _ _ _ ▸ he).2).symm.trans (config_setting_add_none hadd)
      | some q =>
        rw [hadd] at he
        have hty : (getS hh q).ty = SettingType.tInt64 := by
          rw [config_setting_add_child hadd]
        simp only [config_setting_set_int64_true v hty] at he
        simp at he

theorem write_float64_none_frame {h : List Setting} {w : OptionWriter}
    {name : String} {v : Nat} {h2 : List Setting}
    (he : w.write_float64 h name v = (none, h2)) : h2 = h := by
  cases hw : w.element with
  | none =>
    simp only [OptionWriter.write_float64, hw] at he
    exact (Prod.mk.injEq _ _ _ _ ▸ he).2.symm
  | some e =>
    simp only [OptionWriter.write_float64, hw] at he
    cases hadd : config_setting_add h e name SettingType.tFloat with
    | mk o hh =>
      cases o with
      | none =>
        rw [hadd] at he
        exact ((Prod.mk.injEq _ _ _ _ ▸ he).2).symm.trans (config_setting_add_none hadd)
      | some q =>
        rw [hadd] at he
        have hty : (getS hh q).ty = SettingType.tFloat := by
          rw [config_setting_add_child hadd]
        simp only [config_setting_set_float_true v hty] at he
        simp at he

theorem write_bool_none_frame {h : List Setting} {w : OptionWriter}
    {name : String} {v : Bool} {h2 : List Setting}
    (he : w.write_bool h name v = (none, h2)) : h2 = h := by
  cases hw : w.element with
  | none =>
    simp only [OptionWriter.write_bool, hw] at he
    exact (Prod.mk.injEq _ _ _ _ ▸ he).2.symm
  | some e =>
    simp only [OptionWriter.write_bool, hw] at he
    cases hadd : config_setting_add h e name SettingType.tBool with
    | mk o hh =>
      cases o with
      | none =>
        rw [hadd] at he
        exact ((Prod.mk.injEq _ _ _ _ ▸ he).2).symm.trans (config_setting_add_none hadd)
      | some q =>
        rw [hadd] at he
        have hty : (getS hh q).ty = SettingType.tBool := by
          rw [config_setting_add_child hadd]
        simp only [config_setting_set_bool_true v hty] at he
        simp at he

theorem write_string_none_frame {h : List Setting} {w : OptionWriter}
    {name : String} {v : List Nat} {h2 : List Setting}
    (he : w.write_string h name v = (none, h2)) : h2 = h := by
  cases hw : w.element with
  | none =>
    simp only [OptionWriter.write_string, hw] at he
    exact (Prod.mk.injEq _ _ _ _ ▸ he).2.symm
  | some e =>
    simp only [OptionWriter.write_string, hw] at he
    cases hadd : config_setting_add h e name SettingType.tString with
    | mk o hh =>
      cases o with
      | none =>
        rw [hadd] at he
        exact ((Prod.mk.injEq _ _ _ _ ▸ he).2).symm.trans (config_setting_add_none hadd)
      | some q =>
        rw [hadd] at he
        have hty : (getS hh q).ty = SettingType.tString := by
          rw [config_setting_add_child hadd]
        simp only [config_setting_set_string_true v hty] at he
        simp at he

theorem write_int32_some_self {h : List Setting} {w : OptionWriter}
    {name : String} {v : Int} {w2 : OptionWriter} {h2 : List Setting}
    (he : w.write_int32 h name v = (some w2, h2)) : w2 = w := by
  cases hw : w.element with
  | none =>
    simp only [OptionWriter.write_int32, hw] at he
    simp at he
  | some e =>
    simp only [OptionWriter.write_int32, hw] at he
    cases hadd : config_setting_add h e name SettingType.tInt with
    | mk o hh =>
      cases o with
      | none =>
        rw [hadd] at he
        simp at he
      | some q =>
        rw [hadd] at he
        dsimp only at he
        split at he
        · exact (Option.some.inj (congrArg Prod.fst he)).symm
        · simp at he

theorem write_int64_some_self {h : List Setting} {w : OptionWriter}
    {name : String} {v : Int} {w2 : OptionWriter} {h2 : List Setting}
    (he : w.write_int64 h name v = (some w2, h2)) : w2 = w := by
  cases hw : w.element with
  | none =>
    simp only [OptionWriter.write_int64, hw] at he
    simp at he
  | some e =>
    simp only [OptionWriter.write_int64, hw] at he
    cases hadd : config_setting_add h e name SettingType.tInt64 with
    | mk o hh =>
      cases o with
      | none =>
        rw [hadd] at he
        simp at he
      | some q =>
        rw [hadd] at he
        dsimp only at he
        split at he
        · exact (Option.some.inj (congrArg Prod.fst he)).symm
        · simp at he

theorem write_float64_some_self {h : List Setting} {w : OptionWriter}
    {name : String} {v : Nat} {w2 : OptionWriter} {h2 : List Setting}
    (he : w.write_float64 h name v = (some w2, h2)) : w2 = w := by
  cases hw : w.element with
  | none =>
    simp only [OptionWriter.write_float64, hw] at he
    simp at he
  | some e =>
    simp only [OptionWriter.write_float64, hw] at he
    cases hadd : config_setting_add h e name SettingType.tFloat with
    | mk o hh =>
      cases o with
      | none =>
        rw [hadd] at he
        simp at he
      | some q =>
        rw [hadd] at he
        dsimp only at he
        split at he
        · exact (Option.some.inj (congrArg Prod.fst he)).symm
        · simp at he

theorem write_bool_some_self {h : List Setting} {w : OptionWriter}
    {name : String} {v : Bool} {w2 : OptionWriter} {h2 : List Setting}
    (he : w.write_bool h name v = (some w2, h2)) : w2 = w := by
  cases hw : w.element with
  | none =>
    simp only [OptionWriter.write_bool, hw] at he
    simp at he
  | some e =>
    simp only [OptionWriter.write_bool, hw] at he
    cases hadd : config_setting_add h e name SettingType.tBool with
    | mk o hh =>
      cases o with
      | none =>
        rw [hadd] at he
        simp at he
      | some q =>
        rw [hadd] at he
        dsimp only at he
        split at he
        · exact (Option.some.inj (congrArg Prod.fst he)).symm
        · simp at he

theorem write_string_some_self {h : List Setting} {w : OptionWriter}
    {name : String} {v : List Nat} {w2 : OptionWriter} {h2 : List Setting}
    (he : w.write_string h name v = (some w2, h2)) : w2 = w := by
  cases hw : w.element with
  | none =>
    simp only [OptionWriter.write_string, hw] at he
    simp at he
  | some e =>
    simp only [OptionWriter.write_string, hw] at he
    cases hadd : config_setting_add h e name SettingType.tString with
    | mk o hh =>
      cases o with
      | none =>
        rw [hadd] at he
        simp at he
      | some q =>
        rw [hadd] at he
        dsimp only at he
        split at he
        · exact (Option.some.inj (congrArg Prod.fst he)).symm
        · simp at he

/-! ### Claim theorems -/

/-- C8: every operation invoked on an Unbound view (a reader or writer whose
element is `none`) returns the absent outcome — `none` for Option-returning
operations, an error for Result-returning ones — never a crash, and the
arena is left untouched; this holds for all operations of `OptionReader` and
`OptionWriter`. -/
theorem c8_unbound_ops_absent (h : List Setting) (path nm : String)
    (vi : Int) (vf : Nat) (vb : Bool) (vs : List Nat) :
    (OptionReader.new none).is_section h = none
  ∧ (OptionReader.new none).is_array h = none
  ∧ (OptionReader.new none).is_list h = none
  ∧ (OptionReader.new none).parent h = none
  ∧ (OptionReader.new none).value_type h = none
  ∧ (OptionReader.new none).value h path = none
  ∧ (OptionReader.new none).as_int32 h = none
  ∧ (OptionReader.new none).as_int64 h = none
  ∧ (OptionReader.new none).as_float64 h = none
  ∧ (OptionReader.new none).as_bool h = none
  ∧ (OptionReader.new none).as_string h = none
  ∧ (OptionReader.new none).delete h = (Except.error Errors.ElementNotExists, h)
  ∧ (OptionWriter.new none).delete h = (Except.error Errors.ElementNotExists, h)
  ∧ (OptionWriter.new none).create_section h nm = (none, h)
  ∧ (OptionWriter.new none).create_array h nm = (none, h)
  ∧ (OptionWriter.new none).create_list h nm = (none, h)
  ∧ (OptionWriter.new none).write_int32 h nm vi = (none, h)
  ∧ (OptionWriter.new none).write_int64 h nm vi = (none, h)
  ∧ (OptionWriter.new none).write_float64 h nm vf = (none, h)
  ∧ (OptionWriter.new none).write_bool h nm vb = (none, h)
  ∧ (OptionWriter.new none).write_string h nm vs = (none, h) :=
  ⟨rfl, rfl, rfl, rfl, rfl, rfl, rfl, rfl, rfl, rfl, rfl, rfl, rfl, rfl, rfl,
   rfl, rfl, rfl, rfl, rfl, rfl⟩

/-- C9: each `_default` accessor equals its Option-returning sibling with the
fallback substituted for `None` (the source spells the f64 variant
`as_float_default`); being a total function, it never panics. -/
theorem c9_default_accessors (h : List Setting) (r : OptionReader)
    (di : Int) (dl : Int) (df : Nat) (db : Bool) (ds : List Nat) :
    r.as_int32_default h di = (r.as_int32 h).getD di
  ∧ r.as_int64_default h dl = (r.as_int64 h).getD dl
  ∧ r.as_float_default h df = (r.as_float64 h).getD df
  ∧ r.as_bool_default h db = (r.as_bool h).getD db
  ∧ r.as_string_default h ds = (r.as_string h).getD ds := by
  refine ⟨?_, ?_, ?_, ?_, ?_⟩
  · unfold OptionReader.as_int32_default
    cases r.as_int32 h <;> rfl
  · unfold OptionReader.as_int64_default
    cases r.as_int64 h <;> rfl
  · unfold OptionReader.as_float_default
    cases r.as_float64 h <;> rfl
  · unfold OptionReader.as_bool_default
    cases r.as_bool h <;> rfl
  · unfold OptionReader.as_string_default
    cases r.as_string h <;> rfl

/-- C4: `load_from_file` on a path that does not exist returns
`Err(FileNotExists)` and leaves the Config (root element and whole tree)
exactly as it was. -/
theorem c4_load_missing_file_frame (cfg : Config) (outcome : ParseOutcome) :
    cfg.load_from_file false outcome = (Except.error Errors.FileNotExists, cfg) := by
  simp [Config.load_from_file]

/-- C5: whenever a `write_int32`/`write_int64`/`write_float64`/`write_bool`/
`write_string` call returns `None`, the arena — in particular the target
Group's children — is unchanged by that call: no partially-added child
remains. -/
theorem c5_failed_writes_frame :
    (∀ (h : List Setting) (w : OptionWriter) (name : String) (v : Int)
       (h2 : List Setting), w.write_int32 h name v = (none, h2) → h2 = h)
  ∧ (∀ (h : List Setting) (w : OptionWriter) (name : String) (v : Int)
       (h2 : List Setting), w.write_int64 h name v = (none, h2) → h2 = h)
  ∧ (∀ (h : List Setting) (w : OptionWriter) (name : String) (v : Nat)
       (h2 : List Setting), w.write_float64 h name v = (none, h2) → h2 = h)
  ∧ (∀ (h : List Setting) (w : OptionWriter) (name : String) (v : Bool)
       (h2 : List Setting), w.write_bool h name v = (none, h2) → h2 = h)
  ∧ (∀ (h : List Setting) (w : OptionWriter) (name : String) (v : List Nat)
       (h2 : List Setting), w.write_string h name v = (none, h2) → h2 = h) :=
  ⟨fun _ _ _ _ _ he => write_int32_none_frame he,
   fun _ _ _ _ _ he => write_int64_none_frame he,
   fun _ _ _ _ _ he => write_float64_none_frame he,
   fun _ _ _ _ _ he => write_bool_none_frame he,
   fun _ _ _ _ _ he => write_string_none_frame he⟩

/-- C5 witness: a duplicate-name `write_int32` on the arena `intHeap` fails
and leaves the arena unchanged. -/
theorem c5_failed_writes_frame_witness :
    (OptionWriter.new (some 0)).write_int32 intHeap "a" 5 = (none, intHeap)
  ∧ intHeap = intHeap :=
  ⟨by decide,
   c5_failed_writes_frame.1 intHeap (OptionWriter.new (some 0)) "a" 5 intHeap
     (by decide)⟩

/-- C7: every successful `write_*` call returns a writer whose underlying
element is the same as the callee's, so chained writes all append children to
one and the same Group. -/
theorem c7_writes_return_same_group :
    (∀ (h : List Setting) (w : OptionWriter) (name : String) (v : Int)
       (w2 : OptionWriter) (h2 : List Setting),
       w.write_int32 h name v = (some w2, h2) → w2 = w)
  ∧ (∀ (h : List Setting) (w : OptionWriter) (name : String) (v : Int)
       (w2 : OptionWriter) (h2 : List Setting),
       w.write_int64 h name v = (some w2, h2) → w2 = w)
  ∧ (∀ (h : List Setting) (w : OptionWriter) (name : String) (v : Nat)
       (w2 : OptionWriter) (h2 : List Setting),
       w.write_float64 h name v = (some w2, h2) → w2 = w)
  ∧ (∀ (h : List Setting) (w : OptionWriter) (name : String) (v : Bool)
       (w2 : OptionWriter) (h2 : List Setting),
       w.write_bool h name v = (some w2, h2) → w2 = w)
  ∧ (∀ (h : List Setting) (w : OptionWriter) (name : String) (v : List Nat)
       (w2 : OptionWriter) (h2 : List Setting),
       w.write_string h name v = (some w2, h2) → w2 = w) :=
  ⟨fun _ _ _ _ _ _ he => write_int32_some_self he,
   fun _ _ _ _ _ _ he => write_int64_some_self he,
   fun _ _ _ _ _ _ he => write_float64_some_self he,
   fun _ _ _ _ _ _ he => write_bool_some_self he,
   fun _ _ _ _ _ _ he => write_string_some_self he⟩

/-- The arena produced by the successful write of `c7` witness below. -/
def c7Heap : List Setting :=
  [{ defaultSetting with ty := SettingType.tGroup, children := [1] },
   { defaultSetting with name := some "n", ty := SettingType.tInt, parent := some 0, ival := 42 }]

/-- C7 witness: a concrete successful `write_int32` on the root group returns
the original writer. -/
theorem c7_writes_return_same_group_witness :
    (OptionWriter.new (some 0)).write_int32 groupHeap "n" 42
      = (some (OptionWriter.new (some 0)), c7Heap)
  ∧ OptionWriter.new (some 0) = OptionWriter.new (some 0) :=
  ⟨by decide,
   c7_writes_return_same_group.1 groupHeap (OptionWriter.new (some 0)) "n" 42
     (OptionWriter.new (some 0)) c7Heap (by decide)⟩

/-- C1 counterexample: a reader bound to a Group node — not a Scalar — has
`as_int32 = some 0`, not `none` as the claim requires. -/
theorem c1_typed_accessors_counterexample :
    (OptionReader.new (some 0)).is_section groupHeap = some true
  ∧ (OptionReader.new (some 0)).as_int32 groupHeap = some 0
  ∧ (OptionReader.new (some 0)).as_int32 groupHeap ≠ none :=
  ⟨by decide, by decide, by decide⟩

/-- C1 amended: `as_int32`/`as_int64`/`as_float64`/`as_bool` return `none`
exactly when the view is unbound; when bound they return `some` of the stored
value for a scalar of the exact requested type and `some` of the engine
default (0, 0.0 bits, `false`) for any other node; only `as_string` checks
the stored type, returning `some` just for a string scalar whose bytes are
valid UTF-8. -/
theorem c1_typed_accessors_amended (h : List Setting) (r : OptionReader) :
    (r.as_int32 h = none ↔ r.element = none)
  ∧ (r.as_int64 h = none ↔ r.element = none)
  ∧ (r.as_float64 h = none ↔ r.element = none)
  ∧ (r.as_bool h = none ↔ r.element = none)
  ∧ (∀ e, r.element = some e → (getS h e).ty = SettingType.tInt →
       r.as_int32 h = some ((getS h e).ival))
  ∧ (∀ e, r.element = some e → (getS h e).ty ≠ SettingType.tInt →
       r.as_int32 h = some 0)
  ∧ (∀ e, r.element = some e → (getS h e).ty = SettingType.tInt64 →
       r.as_int64 h = some ((getS h e).i64val))
  ∧ (∀ e, r.element = some e → (getS h e).ty ≠ SettingType.tInt64 →
       r.as_int64 h = some 0)
  ∧ (∀ e, r.element = some e → (getS h e).ty = SettingType.tFloat →
       r.as_float64 h = some ((getS h e).fbits))
  ∧ (∀ e, r.element = some e → (getS h e).ty ≠ SettingType.tFloat →
       r.as_float64 h = some 0)
  ∧ (∀ e, r.element = some e → (getS h e).ty = SettingType.tBool →
       r.as_bool h = some ((getS h e).bval))
  ∧ (∀ e, r.element = some e → (getS h e).ty ≠ SettingType.tBool →
       r.as_bool h = some false)
  ∧ (∀ bs, r.as_string h = some bs → isValidUtf8 bs = true ∧
       (∃ e, r.element = some e ∧ (getS h e).ty = SettingType.tString ∧
          (getS h e).sval = some bs)) := by
  refine ⟨?_, ?_, ?_, ?_, ?_, ?_, ?_, ?_, ?_, ?_, ?_, ?_, ?_⟩
  · cases hr : r.element <;> simp [OptionReader.as_int32, hr]
  · cases hr : r.element <;> simp [OptionReader.as_int64, hr]
  · cases hr : r.element <;> simp [OptionReader.as_float64, hr]
  · cases hr : r.element <;> simp [OptionReader.as_bool, hr]
  · intro e hre hty
    simp [OptionReader.as_int32, hre, config_setting_get_int, hty]
  · intro e hre hty
    simp [OptionReader.as_int32, hre, config_setting_get_int, hty]
  · intro e hre hty
    simp [OptionReader.as_int64, hre, config_setting_get_int64, hty]
  · intro e hre hty
    simp [OptionReader.as_int64, hre, config_setting_get_int64, hty]
  · intro e hre hty
    simp [OptionReader.as_float64, hre, config_setting_get_float, hty]
  · intro e hre hty
    simp [OptionReader.as_float64, hre, config_setting_get_float, hty]
  · intro e hre hty
    simp [OptionReader.as_bool, hre, config_setting_get_bool, hty]
  · intro e hre hty
    simp [OptionReader.as_bool, hre, config_setting_get_bool, hty]
  · intro bs hbs
    cases hr : r.element with
    | none =>
      simp only [OptionReader.as_string, hr] at hbs
      cases hbs
    | some e =>
      simp only [OptionReader.as_string, hr] at hbs
      cases hgs : config_setting_get_string h e with
      | none => rw [hgs] at hbs; cases hbs
      | some bs2 =>
        rw [hgs] at hbs
        dsimp only at hbs
        have hty : (getS h e).ty = SettingType.tString := by
          by_contra hne
          rw [config_setting_get_string, if_neg hne] at hgs
          cases hgs
        split at hbs
        · have hb : bs2 = bs := Option.some.inj hbs
          subst hb
          refine ⟨by assumption, e, rfl, hty, ?_⟩
          rw [config_setting_get_string, if_pos hty] at hgs
          exact hgs
        · cases hbs

/-- C1 witness: at a Group-typed node the amended theorem yields
`as_int32 = some 0`. -/
theorem c1_typed_accessors_amended_witness :
    (getS groupHeap 0).ty ≠ SettingType.tInt
  ∧ (OptionReader.new (some 0)).as_int32 groupHeap = some 0 :=
  ⟨by decide,
   (c1_typed_accessors_amended groupHeap
     (OptionReader.new (some 0))).2.2.2.2.2.1 0 rfl (by decide)⟩

/-- Every error produced by `delete` on a bound writer is `DeleteError`. -/
theorem delete_bound_err {h : List Setting} {w : OptionWriter} {e : Ptr}
    {err : Errors} {h2 : List Setting} (hw : w.element = some e)
    (he : w.delete h = (Except.error err, h2)) : err = Errors.DeleteError := by
  simp only [OptionWriter.delete, hw] at he
  split at he
  · split at he
    · exact (Except.error.inj (congrArg Prod.fst he)).symm
    · split at he
      · exact (Except.error.inj (congrArg Prod.fst he)).symm
      · split at he
        · exact absurd (congrArg Prod.fst he) (by simp)
        · exact (Except.error.inj (congrArg Prod.fst he)).symm
  · split at he
    · exact (Except.error.inj (congrArg Prod.fst he)).symm
    · split at he
      · split at he
        · exact absurd (congrArg Prod.fst he) (by simp)
        · exact (Except.error.inj (congrArg Prod.fst he)).symm
      · split at he
        · exact absurd (congrArg Prod.fst he) (by simp)
        · exact (Except.error.inj (congrArg Prod.fst he)).symm

/-- C2 counterexample: `delete` on an invalid (unbound) view returns
`ElementNotExists`, which is not `DeleteError` as the claim requires. -/
theorem c2_delete_counterexample :
    (OptionWriter.new none).delete [] =
      (Except.error Errors.ElementNotExists, ([] : List Setting))
  ∧ Errors.ElementNotExists ≠ Errors.DeleteError :=
  ⟨rfl, by decide⟩

/-- C2 amended: `delete` fails with `ElementNotExists` exactly when the view
is invalid; on a bound view every failure is `DeleteError`, raised when the
node is a Group with no retrievable name, when the node has no parent, or
when the underlying engine removal is rejected. -/
theorem c2_delete_error_kinds (h : List Setting) (w : OptionWriter) :
    (w.element = none → w.delete h = (Except.error Errors.ElementNotExists, h))
  ∧ ((w.delete h).1 = Except.error Errors.ElementNotExists ↔ w.element = none)
  ∧ (∀ e, w.element = some e → config_setting_is_group h e = true →
       config_setting_name h e = none →
       w.delete h = (Except.error Errors.DeleteError, h))
  ∧ (∀ e, w.element = some e → config_setting_parent h e = none →
       w.delete h = (Except.error Errors.DeleteError, h))
  ∧ (∀ e err h2, w.element = some e → w.delete h = (Except.error err, h2) →
       err = Errors.DeleteError) := by
  refine ⟨?_, ?_, ?_, ?_, ?_⟩
  · intro hw
    simp only [OptionWriter.delete, hw]
  · constructor
    · intro hfst
      cases hw : w.element with
      | none => rfl
      | some e =>
        have hpair : w.delete h =
            (Except.error Errors.ElementNotExists, (w.delete h).2) :=
          Prod.ext hfst rfl
        exact Errors.noConfusion (delete_bound_err hw hpair)
    · intro hw
      simp only [OptionWriter.delete, hw]
  · intro e hw hg hn
    simp [OptionWriter.delete, hw, hg, hn]
  · intro e hw hp
    by_cases hg : config_setting_is_group h e = true
    · cases hn : config_setting_name h e with
      | none => simp [OptionWriter.delete, hw, hg, hn]
      | some nm => simp [OptionWriter.delete, hw, hg, hn, hp]
    · have hg2 : config_setting_is_group h e = false := by
        simpa using hg
      simp [OptionWriter.delete, hw, hg2, hp]
  · intro e err h2 hw he
    exact delete_bound_err hw he

/-- C2 witness: deleting the unnamed root group fails with `DeleteError`. -/
theorem c2_delete_error_kinds_witness :
    config_setting_is_group groupHeap 0 = true
  ∧ config_setting_name groupHeap 0 = none
  ∧ (OptionWriter.new (some 0)).delete groupHeap =
      (Except.error Errors.DeleteError, groupHeap) :=
  ⟨by decide, by decide,
   (c2_delete_error_kinds groupHeap (OptionWriter.new (some 0))).2.2.1 0 rfl
     (by decide) (by decide)⟩

/-- C3: whenever the parse step fails — `load_from_string` on any engine
failure (or a null root after success), or the parse step of
`load_from_file` — the call returns `Err(ParseError)` and the stored root is
cleared to `none`, so no partial tree is retained. -/
theorem c3_parse_failure_clears_root (cfg : Config) (outcome : ParseOutcome) :
    (outcome.success = false →
       cfg.load_from_string outcome =
         (Except.error Errors.ParseError,
          { heap := outcome.heap, root_element := none })
     ∧ cfg.load_from_file true outcome =
         (Except.error Errors.ParseError,
          { heap := outcome.heap, root_element := none }))
  ∧ (∀ res cfg2, cfg.load_from_string outcome = (Except.error res, cfg2) →
       res = Errors.ParseError ∧ cfg2.root_element = none) := by
  constructor
  · intro hs
    constructor
    · simp [Config.load_from_string, hs]
    · simp [Config.load_from_file, hs]
  · intro res cfg2 he
    unfold Config.load_from_string at he
    split at he
    · split at he
      · refine ⟨(Except.error.inj (congrArg Prod.fst he)).symm, ?_⟩
        have h2 : ({ heap := outcome.heap, root_element := none } : Config) = cfg2 :=
          congrArg Prod.snd he
        rw [← h2]
      · exact absurd (congrArg Prod.fst he) (by simp)
    · refine ⟨(Except.error.inj (congrArg Prod.fst he)).symm, ?_⟩
      have h2 : ({ heap := outcome.heap, root_element := none } : Config) = cfg2 :=
        congrArg Prod.snd he
      rw [← h2]

/-- An engine outcome reporting a parse failure. -/
def failOutcome : ParseOutcome :=
  { success := false, heap := [], rootPtr := none }

/-- C3 witness: a failed parse on a fresh document returns `ParseError` and a
cleared root. -/
theorem c3_parse_failure_clears_root_witness :
    failOutcome.success = false
  ∧ Config.new.load_from_string failOutcome =
      (Except.error Errors.ParseError,
       { heap := ([] : List Setting), root_element := none }) :=
  ⟨rfl, ((c3_parse_failure_clears_root Config.new failOutcome).1 rfl).1⟩

/-- C6: duplicate-name insertion into the same Group is rejected: on a bound
writer over a Group with `name` fresh among its children, each of
`create_section`/`create_array`/`create_list`/`write_*` succeeds once, and —
after a successful `create_section name` — any same-name creator or writer
call on the same writer returns `None` and leaves the arena unchanged. -/
theorem c6_duplicate_name_rejected (h : List Setting) (w : OptionWriter)
    (e : Ptr) (name : String) (vi : Int) (vf : Nat) (vb : Bool) (vs : List Nat)
    (hw : w.element = some e) (hwf : wfChildren h e = true)
    (hg : config_setting_is_group h e = true)
    (hf : findMember h e name = none) :
    ((w.create_section h name).1 = some (OptionWriter.new (some h.length))
  ∧ (w.create_array h name).1 = some (OptionWriter.new (some h.length))
  ∧ (w.create_list h name).1 = some (OptionWriter.new (some h.length))
  ∧ (w.write_int32 h name vi).1 = some w
  ∧ (w.write_int64 h name vi).1 = some w
  ∧ (w.write_float64 h name vf).1 = some w
  ∧ (w.write_bool h name vb).1 = some w
  ∧ (w.write_string h name vs).1 = some w)
  ∧ (w.create_section (w.create_section h name).2 name
       = (none, (w.create_section h name).2)
  ∧ w.create_array (w.create_section h name).2 name
       = (none, (w.create_section h name).2)
  ∧ w.create_list (w.create_section h name).2 name
       = (none, (w.create_section h name).2)
  ∧ w.write_int32 (w.create_section h name).2 name vi
       = (none, (w.create_section h name).2)
  ∧ w.write_int64 (w.create_section h name).2 name vi
       = (none, (w.create_section h name).2)
  ∧ w.write_float64 (w.create_section h name).2 name vf
       = (none, (w.create_section h name).2)
  ∧ w.write_bool (w.create_section h name).2 name vb
       = (none, (w.create_section h name).2)
  ∧ w.write_string (w.create_section h name).2 name vs
       = (none, (w.create_section h name).2)) := by
  obtain ⟨H2, haddG⟩ : ∃ H2,
      config_setting_add h e name SettingType.tGroup = (some h.length, H2) :=
    ⟨_, config_setting_add_success SettingType.tGroup hg hf⟩
  obtain ⟨HA, haddA⟩ : ∃ HA,
      config_setting_add h e name SettingType.tArray = (some h.length, HA) :=
    ⟨_, config_setting_add_success SettingType.tArray hg hf⟩
  obtain ⟨HL, haddL⟩ : ∃ HL,
      config_setting_add h e name SettingType.tList = (some h.length, HL) :=
    ⟨_, config_setting_add_success SettingType.tList hg hf⟩
  obtain ⟨HI, haddI⟩ : ∃ HI,
      config_setting_add h e name SettingType.tInt = (some h.length, HI) :=
    ⟨_, config_setting_add_success SettingType.tInt hg hf⟩
  obtain ⟨HJ, haddJ⟩ : ∃ HJ,
      config_setting_add h e name SettingType.tInt64 = (some h.length, HJ) :=
    ⟨_, config_setting_add_success SettingType.tInt64 hg hf⟩
  obtain ⟨HF, haddF⟩ : ∃ HF,
      config_setting_add h e name SettingType.tFloat = (some h.length, HF) :=
    ⟨_, config_setting_add_success SettingType.tFloat hg hf⟩
  obtain ⟨HB, haddB⟩ : ∃ HB,
      config_setting_add h e name SettingType.tBool = (some h.length, HB) :=
    ⟨_, config_setting_add_success SettingType.tBool hg hf⟩
  obtain ⟨HS, haddS⟩ : ∃ HS,
      config_setting_add h e name SettingType.tString = (some h.length, HS) :=
    ⟨_, config_setting_add_success SettingType.tString hg hf⟩
  have hcs : w.create_section h name =
      (some (OptionWriter.new (some h.length)), H2) := by
    simp only [OptionWriter.create_section, hw, haddG]
  have hsnd : (w.create_section h name).2 = H2 := by rw [hcs]
  have hchI : (getS HI h.length).ty = SettingType.tInt := by
    rw [config_setting_add_child haddI]
  have hchJ : (getS HJ h.length).ty = SettingType.tInt64 := by
    rw [config_setting_add_child haddJ]
  have hchF : (getS HF h.length).ty = SettingType.tFloat := by
    rw [config_setting_add_child haddF]
  have hchB : (getS HB h.length).ty = SettingType.tBool := by
    rw [config_setting_add_child haddB]
  have hchS : (getS HS h.length).ty = SettingType.tString := by
    rw [config_setting_add_child haddS]
  refine ⟨⟨?_, ?_, ?_, ?_, ?_, ?_, ?_, ?_⟩, ?_, ?_, ?_, ?_, ?_, ?_, ?_, ?_⟩
  · rw [hcs]
  · simp [OptionWriter.create_array, hw, haddA]
  · simp [OptionWriter.create_list, hw, haddL]
  · simp [OptionWriter.write_int32, hw, haddI,
      config_setting_set_int_true vi hchI]
  · simp [OptionWriter.write_int64, hw, haddJ,
      config_setting_set_int64_true vi hchJ]
  · simp [OptionWriter.write_float64, hw, haddF,
      config_setting_set_float_true vf hchF]
  · simp [OptionWriter.write_bool, hw, haddB,
      config_setting_set_bool_true vb hchB]
  · simp [OptionWriter.write_string, hw, haddS,
      config_setting_set_string_true vs hchS]
  · rw [hsnd]
    simp [OptionWriter.create_section, hw,
      config_setting_add_dup hwf haddG SettingType.tGroup]
  · rw [hsnd]
    simp [OptionWriter.create_array, hw,
      config_setting_add_dup hwf haddG SettingType.tArray]
  · rw [hsnd]
    simp [OptionWriter.create_list, hw,
      config_setting_add_dup hwf haddG SettingType.tList]
  · rw [hsnd]
    simp [OptionWriter.write_int32, hw,
      config_setting_add_dup hwf haddG SettingType.tInt]
  · rw [hsnd]
    simp [OptionWriter.write_int64, hw,
      config_setting_add_dup hwf haddG SettingType.tInt64]
  · rw [hsnd]
    simp [OptionWriter.write_float64, hw,
      config_setting_add_dup hwf haddG SettingType.tFloat]
  · rw [hsnd]
    simp [OptionWriter.write_bool, hw,
      config_setting_add_dup hwf haddG SettingType.tBool]
  · rw [hsnd]
    simp [OptionWriter.write_string, hw,
      config_setting_add_dup hwf haddG SettingType.tString]

/-- C6 witness: on the bare root group, `create_section "x"` succeeds and the
same call on the same writer is then refused. -/
theorem c6_duplicate_name_rejected_witness :
    ((OptionWriter.new (some 0)).create_section groupHeap "x").1
      = some (OptionWriter.new (some 1))
  ∧ (OptionWriter.new (some 0)).create_section
      ((OptionWriter.new (some 0)).create_section groupHeap "x").2 "x"
      = (none, ((OptionWriter.new (some 0)).create_section groupHeap "x").2) := by
  have hc := c6_duplicate_name_rejected groupHeap (OptionWriter.new (some 0)) 0
    "x" 0 0 false [] rfl (by decide) (by decide) (by decide)
  exact ⟨hc.1.1, hc.2.1⟩

/-- C10: `as_string` returns `none` when the engine hands back a null string
pointer or when the stored bytes are not valid UTF-8, never a lossy or
panicking conversion; `some` is returned only for the stored valid-UTF-8
string value. -/
theorem c10_as_string_utf8 (h : List Setting) (r : OptionReader) :
    (∀ e, r.element = some e → config_setting_get_string h e = none →
       r.as_string h = none)
  ∧ (∀ e bs, r.element = some e → config_setting_get_string h e = some bs →
       isValidUtf8 bs = false → r.as_string h = none)
  ∧ (∀ bs, r.as_string h = some bs →
       isValidUtf8 bs = true ∧ ∃ e, r.element = some e ∧
         config_setting_get_string h e = some bs) := by
  refine ⟨?_, ?_, ?_⟩
  · intro e hre hgs
    simp [OptionReader.as_string, hre, hgs]
  · intro e bs hre hgs hbad
    simp [OptionReader.as_string, hre, hgs, hbad]
  · intro bs hbs
    cases hr : r.element with
    | none =>
      simp only [OptionReader.as_string, hr] at hbs
      cases hbs
    | some e =>
      simp only [OptionReader.as_string, hr] at hbs
      cases hgs : config_setting_get_string h e with
      | none => rw [hgs] at hbs; cases hbs
      | some bs2 =>
        rw [hgs] at hbs
        dsimp only at hbs
        split at hbs
        · have hb : bs2 = bs := Option.some.inj hbs
          subst hb
          exact ⟨by assumption, e, rfl, hgs⟩
        · cases hbs

/-- C10 witness: a string scalar holding the invalid byte `0xFF` reads as
`none`. -/
theorem c10_as_string_utf8_witness :
    config_setting_get_string badStrHeap 0 = some [255]
  ∧ isValidUtf8 [255] = false
  ∧ (OptionReader.new (some 0)).as_string badStrHeap = none :=
  ⟨by decide, by decide,
   (c10_as_string_utf8 badStrHeap (OptionReader.new (some 0))).2.1 0 [255]
     rfl (by decide) (by decide)⟩

end RustConfig
